import Mathlib

/-!
Verification development for the Suno-Saathi conversational navigation backend.

The definitions below are a shallow embedding of the Python sources:
  * `clean_llm_response` and its pattern rules embed
    `backend/modules/llm_interface.py` (`clean_llm_response`, lines 13-59),
    with each `re` pattern's leftmost-match/backtracking semantics spelled
    out as an explicit scan over the character list;
  * the traffic classifier embeds `backend/modules/navigation.py`
    (`get_traffic_info`, lines 179-201); Python floats are modelled as exact
    rationals and Python's `int()` as truncation toward zero;
  * the session store embeds `Session` / `SessionManager` from
    `backend/modules/llm_interface.py`, with wall-clock time passed
    explicitly as an integer and the generation client as an oracle;
  * the rule-based navigation-query fallback embeds
    `backend/app.py` (`process_navigation_query`, lines 229-333).

Text is modelled as `List Char`; `String.data` converts literals.
-/

abbrev Str := List Char

/-- Python's `\s` character class on the ASCII range: space, tab, newline,
carriage return, vertical tab and form feed. -/
def pyIsSpace (c : Char) : Bool :=
  c = ' ' || c = '\t' || c = '\n' || c = '\r' || c = Char.ofNat 11 || c = Char.ofNat 12

/-- Python `str.strip()`: remove leading and trailing whitespace. -/
def pyStrip (s : Str) : Str :=
  ((s.dropWhile pyIsSpace).reverse.dropWhile pyIsSpace).reverse

/-- Leftmost-occurrence split: `splitFirst pat text = some (pre, post)` when
`text = pre ++ pat ++ post` and `pat` does not occur earlier; `none` when
`pat` does not occur in `text`.  This is the start-position scan common to
`re.search` for patterns beginning with a literal, and to Python's `in`. -/
def splitFirst (pat : Str) : Str → Option (Str × Str)
  | [] => if pat.isPrefixOf ([] : Str) then some ([], []) else none
  | c :: rest =>
    if pat.isPrefixOf (c :: rest) then some ([], (c :: rest).drop pat.length)
    else
      match splitFirst pat rest with
      | some (pre, post) => some (c :: pre, post)
      | none => none

/-- Python's substring test `pat in text`. -/
def containsSub (pat text : Str) : Bool := (splitFirst pat text).isSome

/-- A position is at a line end for a MULTILINE `$`: end of text or just
before a newline. -/
def atLineEnd : Str → Bool
  | [] => true
  | c :: _ => c = '\n'

/-- The lazy group of `Saarthi:\s*"?(.*?)"?$` (MULTILINE, DOTALL) after the
marker, whitespace and optional opening quote have been consumed: grow the
group one character at a time, stopping at the first position where the
optional closing quote followed by a line end - quote first, as the regex
prefers consuming `"?` - or a bare line end matches. -/
def lazyBody (acc : Str) : Str → Str
  | [] => acc.reverse
  | c :: rest =>
    if c = '"' && atLineEnd rest then acc.reverse
    else if c = '\n' then acc.reverse
    else lazyBody (c :: acc) rest

/-- The greedy `"?` right after `Saarthi:\s*`. -/
def dropOpenQuote : Str → Str
  | '"' :: r => r
  | r => r

/-- Rule 1 of `clean_llm_response`: `re.search(r'Saarthi:\s*"?(.*?)"?$', text,
re.MULTILINE | re.DOTALL)`.  The search anchors at the first occurrence of
the literal `Saarthi:`; `\s*` and the leading `"?` are greedy and never
backtrack because the lazy group can always reach the end of the text. -/
def rule1_saarthi (text : Str) : Option Str :=
  match splitFirst ("Saarthi:").data text with
  | none => none
  | some (_, rest) => some (pyStrip (lazyBody [] (dropOpenQuote (rest.dropWhile pyIsSpace))))

/-- Rule 2 of `clean_llm_response`: `re.search(r"\(([^)]+)\)$", text,
re.MULTILINE | re.DOTALL)`.  At each `(` from the left, `[^)]+` greedily
takes the maximal nonempty run of non-`)` characters; the run must be
followed by `)` at a line end, otherwise the scan moves to the next `(`. -/
def rule2_parens : Str → Option Str
  | [] => none
  | c :: rest =>
    if c = '(' then
      match rest.dropWhile (fun x => x ≠ ')') with
      | ')' :: tail =>
        if rest.takeWhile (fun x => x ≠ ')') ≠ [] && atLineEnd tail then
          some (pyStrip (rest.takeWhile (fun x => x ≠ ')')))
        else rule2_parens rest
      | _ => none
    else rule2_parens rest

/-- Non-overlapping quoted spans, as `re.findall(r'"([^"]+)"', text)` yields
them: scanning left to right, a `"` followed by a nonempty run of non-`"`
characters and a closing `"` is a match and the scan resumes after the
closing quote; a `"` immediately followed by another `"` fails and the scan
resumes at that second quote.  The state argument is `none` outside a
candidate span and `some acc` (the reversed run so far) after an opening
quote; a candidate without a closing quote by the end of the text yields
nothing. -/
def findQuotedAux : Option Str → Str → List Str
  | none, [] => []
  | none, c :: rest =>
    if c = '"' then findQuotedAux (some []) rest else findQuotedAux none rest
  | some _, [] => []
  | some acc, c :: rest =>
    if c = '"' then
      if acc = [] then findQuotedAux (some []) rest
      else acc.reverse :: findQuotedAux none rest
    else findQuotedAux (some (c :: acc)) rest

/-- All quoted spans of the text, left to right. -/
def findQuoted (t : Str) : List Str := findQuotedAux none t

/-- Does the span contain a character of the Devanagari block `[ऀ-ॿ]`
(U+0900 to U+097F)? -/
def hasDevanagari (s : Str) : Bool :=
  s.any (fun c => 0x900 ≤ c.toNat && c.toNat ≤ 0x97F)

/-- Rule 3 of `clean_llm_response`: if any quoted span contains Devanagari,
return the last such span, stripped. -/
def rule3_quotes (text : Str) : Option Str :=
  match (findQuoted text).reverse.find? hasDevanagari with
  | some q => some (pyStrip q)
  | none => none

/-- Consume a literal, or fail. -/
def eatLit (pat : Str) (t : Str) : Option Str :=
  if pat.isPrefixOf t then some (t.drop pat.length) else none

/-- Consume `\s+`: a maximal, nonempty whitespace run.  The following atom
in the pattern is never itself whitespace, so backtracking into the run can
never produce a match and the maximal run is the one the engine keeps. -/
def eatWs1 (t : Str) : Option Str :=
  if t.takeWhile pyIsSpace = [] then none else some (t.dropWhile pyIsSpace)

/-- One attempt of `here'?s\s+a\s+possible\s+response:?\s*(.*)` (DOTALL) at
the current position of the lowered text: on success the greedy group is
everything after the cue and its trailing whitespace, through end of text. -/
def matchPossibleHere (t : Str) : Option Str :=
  (eatLit (("here").data) t).bind fun t1 =>
  (eatLit (("s").data) (match t1 with | '\'' :: r => r | r => r)).bind fun t3 =>
  (eatWs1 t3).bind fun t4 =>
  (eatLit (("a").data) t4).bind fun t5 =>
  (eatWs1 t5).bind fun t6 =>
  (eatLit (("possible").data) t6).bind fun t7 =>
  (eatWs1 t7).bind fun t8 =>
  (eatLit (("response").data) t8).bind fun t9 =>
  some (pyStrip ((match t9 with | ':' :: r => r | r => r).dropWhile pyIsSpace))

/-- Leftmost-match scan for rule 4's pattern. -/
def scanPossibleHere : Str → Option Str
  | [] => none
  | c :: rest =>
    match matchPossibleHere (c :: rest) with
    | some g => some g
    | none => scanPossibleHere rest

/-- Rule 4 of `clean_llm_response`: the search runs on `text.lower()`, so the
returned group is lower-cased text. -/
def rule4_possible (text : Str) : Option Str :=
  scanPossibleHere (text.map Char.toLower)

/-- Rule 5 of `clean_llm_response`: `re.search(r":\s*(.+)$", text, re.DOTALL)`.
The match anchors at the leftmost `:` with at least one character after it;
`.+` greedily reaches the end of the text, and stripping the group equals
stripping everything after that colon (the greedy `\s*` only moves
whitespace out of the group). -/
def rule5_colon : Str → Option Str
  | [] => none
  | c :: rest =>
    if c = ':' then
      if rest = [] then none else some (pyStrip rest)
    else rule5_colon rest

/-- The full extraction cascade `clean_llm_response` of
`backend/modules/llm_interface.py`, lines 13-59: the first matching rule
wins, and with no match the stripped original text is returned. -/
def clean_llm_response (text : Str) : Str :=
  match rule1_saarthi text with
  | some r => r
  | none =>
    match rule2_parens text with
    | some r => r
    | none =>
      match rule3_quotes text with
      | some r => r
      | none =>
        match rule4_possible text with
        | some r => r
        | none =>
          match rule5_colon text with
          | some r => r
          | none => pyStrip text

/-- Traffic ratio from `get_traffic_info` (navigation.py line 183):
`traffic_duration / normal_duration if normal_duration > 0 else 1`, with the
float arithmetic modelled as exact rationals. -/
def traffic_ratio (traffic_duration normal_duration : Int) : Rat :=
  if normal_duration > 0 then (traffic_duration : Rat) / (normal_duration : Rat) else 1

/-- Traffic level from `get_traffic_info` (navigation.py lines 185-192). -/
def traffic_level (traffic_duration normal_duration : Int) : Str :=
  if traffic_ratio traffic_duration normal_duration < 1.1 then ("light").data
  else if traffic_ratio traffic_duration normal_duration < 1.3 then ("moderate").data
  else if traffic_ratio traffic_duration normal_duration < 1.5 then ("heavy").data
  else ("severe").data

/-- The `has_traffic` field (navigation.py line 198):
`traffic_duration > normal_duration * 1.1`. -/
def has_traffic (traffic_duration normal_duration : Int) : Bool :=
  decide ((normal_duration : Rat) * 1.1 < (traffic_duration : Rat))

/-- Python's `int()` applied to a rational: truncation toward zero. -/
def ratTrunc (q : Rat) : Int :=
  if 0 ≤ q then ⌊q⌋ else ⌈q⌉

/-- The `delay_minutes` field (navigation.py line 200):
`int((traffic_duration - normal_duration) / 60)`. -/
def delay_minutes (traffic_duration normal_duration : Int) : Int :=
  ratTrunc (((traffic_duration - normal_duration : Int) : Rat) / 60)

/-- One conversational turn (`Message` in llm_interface.py, lines 119-126);
wall-clock instants are modelled as integers passed in explicitly. -/
structure Message where
  role : Str
  content : Str
  timestamp : Int
deriving DecidableEq, Repr

/-- A conversational session (`Session` in llm_interface.py, lines 129-167). -/
structure Session where
  session_id : Str
  system_prompt : Str
  messages : List Message
  created_at : Int
  last_accessed : Int
deriving DecidableEq, Repr

/-- The default system prompt `DEFAULT_CONTEXT` (llm_interface.py lines
63-116), reproduced verbatim. -/
def DEFAULT_CONTEXT : Str := ("

You are Suno Saarthi, a friendly and helpful AI co-passenger designed for Indian drivers. Your role is to provide:
1. Safe, distraction-free navigation assistance
2. Culturally-aware driving advice
3. Natural mixed-language (Hindi-English) responses

Core Principles:
- Detect primary language from speech/text (Hindi, Tamil, Telugu, Kannada, Malayalam, Bengali, Marathi, Gujarati, Punjabi) and respond in this language.
- Support language-switching patterns that mix well with locals and their specific language proficiency (e.g. Hindi users don't usually use terms like \"kosh\" for \"km\").
- Always prioritize driver safety (never distract with long responses) in user's most proficient language.
- Use simple, clear instructions with landmarks familiar to Indian drivers.
- Support seamless code-switching (e.g., \"Aage 500m par left lena\" + \"then take the flyover\").
- Be proactive but not intrusive.

IMPORTANT: Always provide your direct response only, without ANY explanation, analysis, or thinking. No meta-commentary. Don't talk about what you're assuming or figuring out. Just respond as Saarthi would to the user.

Response Guidelines:
1. Navigation Mode:
- Format: [Direction] + [Distance] + [Landmark] + [Lane Guidance]
- Example: \"Right lena 200m aage DMRC ke baad, left lane mein rahiye\"

2. Query Handling:
- Traffic: \"Yahan se 5 minute ka jam hai. Alternate route via MG Road?\"
- Landmarks: \"Next petrol pump HP hai, 1.2km aage left side pe\"
- Hazards: \"Slow down - speed breaker 50m aage\"

3. Cultural Nuances:
- Use local terms: \"service lane\" instead of shoulder, \"thela\" for street vendors
- Recognize Indian road behaviors: \"Gaadi waale suddenly cut kar sakte hain\"

4. Personality Traits:
- Helpful but concise
- Mild humor when appropriate (\"Abhi straight jaayein, bilkul apne saas ki tarah\")
- Reassuring in stressful situations (\"Koi baat nahi, next U-turn se wapas chalein\")

Safety Protocols:
- If query requires complex answer: \"Baad mein batata hoon, abhi road pe dhyan dijiye\"
- For non-driving queries: \"Ye sunn ke khush hue: [joke]. Ab back to driving!\"

Example Interactions:
User: \"Flyover lena hai ya nahi?\"
Saarthi: \"Haan, 800m aage flyover lena better hai. Right lane shift karein\"

User: \"Shortcut pata hai?\"
Saarthi: \"Haan, ek gali se shortcut hai lekin thoda congested ho sakta hai. Bataun?\"

User: \"Bohot traffic hai!\"
Saarthi: \"Samajh raha hoon. Next signal se left le lijiye, wahan kam jam hai\"

User: \"Yaha se kaha jau?\"
Saarthi: \"Seedhe chalo. Aage bada chowk aayega.\"

Keep responses brief and focused on navigation when the user is driving. NEVER include any analysis or thinking in your response - just reply directly as Saarthi would.
").data

/-- `Session.add_message`: append one turn and touch `last_accessed`. -/
def Session.add_message (now : Int) (s : Session) (role content : Str) : Session :=
  { s with messages := s.messages ++ [Message.mk role content now], last_accessed := now }

/-- `Session.get_formatted_history` (llm_interface.py lines 142-158): the
system prompt, a blank line, each message as a role-prefixed line built up by
the loop, and an open assistant marker when the last message is a user turn. -/
def Session.get_formatted_history (s : Session) : Str :=
  (s.messages.foldl
    (fun acc m =>
      if m.role = ("user").data then acc ++ ("User: ").data ++ m.content ++ ['\n']
      else acc ++ ("Saarthi: ").data ++ m.content ++ ['\n'])
    (s.system_prompt ++ ("\n\n").data))
  ++ (match s.messages.getLast? with
      | some m => if m.role = ("user").data then ("Saarthi: ").data else []
      | none => [])

/-- `Session.is_expired`: `last_accessed < now - timedelta(minutes =
expiry_minutes)`, with time measured in minutes. -/
def Session.is_expired (now expiry_minutes : Int) (s : Session) : Bool :=
  decide (s.last_accessed < now - expiry_minutes)

/-- The session store (`SessionManager` in llm_interface.py): the dict
`self.sessions` as an insertion-ordered association list with unique keys. -/
structure SessionManager where
  sessions : List (Str × Session)
  session_expiry_minutes : Int
deriving DecidableEq, Repr

/-- Dict assignment `self.sessions[k] = v`: replace in place, or append. -/
def dictSet : List (Str × Session) → Str → Session → List (Str × Session)
  | [], k, v => [(k, v)]
  | (k0, v0) :: rest, k, v =>
    if k0 = k then (k, v) :: rest else (k0, v0) :: dictSet rest k v

/-- `SessionManager._clean_expired_sessions`: delete every expired session. -/
def SessionManager.clean_expired_sessions (now : Int) (m : SessionManager) : SessionManager :=
  { m with sessions :=
      m.sessions.filter (fun p => ! Session.is_expired now m.session_expiry_minutes p.2) }

/-- `SessionManager.create_session`; `gen_id` stands for the fresh
`str(uuid.uuid4())` the call would draw, supplied as an oracle.  Python's
falsy tests `if not session_id` / `if not system_prompt` hold for `None` and
for the empty string alike. -/
def SessionManager.create_session (gen_id : Str) (session_id system_prompt : Option Str)
    (now : Int) (m : SessionManager) : Str × SessionManager :=
  let sid := match session_id with
    | none => gen_id
    | some s => if s = [] then gen_id else s
  let sp := match system_prompt with
    | none => DEFAULT_CONTEXT
    | some p => if p = [] then DEFAULT_CONTEXT else p
  (sid, { m with sessions := dictSet m.sessions sid (Session.mk sid sp [] now now) })

/-- `SessionManager.get_session`: sweep expired sessions, then look the id up
and touch `last_accessed` on a hit (the stored object is mutated, so the
store is updated too). -/
def SessionManager.get_session (now : Int) (m : SessionManager) (session_id : Str) :
    Option Session × SessionManager :=
  let m1 := SessionManager.clean_expired_sessions now m
  match List.lookup session_id m1.sessions with
  | some s =>
    (some { s with last_accessed := now },
     { m1 with sessions := dictSet m1.sessions session_id { s with last_accessed := now } })
  | none => (none, m1)

/-- `SessionManager.delete_session`. -/
def SessionManager.delete_session (m : SessionManager) (session_id : Str) :
    Bool × SessionManager :=
  if (List.lookup session_id m.sessions).isSome then
    (true, { m with sessions := m.sessions.filter (fun p => p.1 ≠ session_id) })
  else (false, m)

/-- The result dict of `LLMGemini.chat` (core/llm.py lines 34-75): every
return carries a `status` and a `response` text. -/
structure LLMResult where
  status : Str
  response : Str
deriving DecidableEq, Repr

/-- The dict `get_response` hands back: the chat result, its `response`
replaced by the cleaned text on success, plus the resolved session id. -/
structure ChatResponse where
  status : Str
  response : Str
  session_id : Str
deriving DecidableEq, Repr

/-- `SessionManager.get_response` (llm_interface.py lines 210-240).  The
generation client `llm.chat` is an oracle function and `gen_id` the uuid the
creation branch would draw.  The `none` result models the `AttributeError`
Python would raise if the freshly created session were swept by the second
`get_session` (possible only with a negative expiry window). -/
def SessionManager.get_response (chat : Str → LLMResult) (gen_id : Str) (now : Int)
    (m : SessionManager) (session_id : Str) (user_message : Str) :
    Option (ChatResponse × SessionManager) :=
  let resolved : Option (Str × Session × SessionManager) :=
    match SessionManager.get_session now m session_id with
    | (some s, m1) => some (session_id, s, m1)
    | (none, m1) =>
      let c := SessionManager.create_session gen_id (some session_id) none now m1
      match SessionManager.get_session now c.2 c.1 with
      | (some s, m2) => some (c.1, s, m2)
      | (none, _) => none
  match resolved with
  | none => none
  | some (sid, s, m2) =>
    let s1 := Session.add_message now s (("user").data) user_message
    let m3 := { m2 with sessions := dictSet m2.sessions sid s1 }
    let llm_response := chat (Session.get_formatted_history s1)
    if llm_response.status = ("success").data then
      let cleaned := clean_llm_response llm_response.response
      let s2 := Session.add_message now s1 (("assistant").data) cleaned
      some (ChatResponse.mk llm_response.status cleaned sid,
            { m3 with sessions := dictSet m3.sessions sid s2 })
    else
      some (ChatResponse.mk llm_response.status llm_response.response sid, m3)

/-- Python `str.lower()` (ASCII case mapping suffices for the keyword sets). -/
def lowerStr (s : Str) : Str := s.map Char.toLower

/-- The dict `get_traffic_info` hands back (navigation.py): the error paths
omit `delay_minutes`, so the payload fields are optional, matching
`dict.get` with a default at the use site in app.py. -/
structure TrafficInfoDict where
  status : Str
  has_traffic : Option Bool
  traffic_level : Option Str
  delay_minutes : Option Int
deriving DecidableEq, Repr

/-- One place of a `find_places` result (only the consumed field). -/
structure Place where
  name : Str
deriving DecidableEq, Repr

/-- The dict `find_places` hands back (only the consumed fields). -/
structure PlacesResult where
  status : Str
  places : List Place
deriving DecidableEq, Repr

/-- The `response_data` dict built by `process_navigation_query`
(app.py lines 256-330): keys that some branches never set are optional. -/
structure NavQueryResponse where
  query_type : Str
  original_query : Str
  response : Str
  feature : Option Str := none
  place_type : Option Str := none
  traffic_info : Option TrafficInfoDict := none
  places : Option PlacesResult := none
deriving DecidableEq, Repr

/-- Keyword set of the traffic branch (app.py line 264). -/
def trafficKeywords : List Str :=
  [("traffic").data, ("congestion").data, ("jam").data, ("busy").data]

/-- Keyword set of the route-feature branch (app.py lines 285-286). -/
def featureKeywords : List Str :=
  [("flyover").data, ("underpass").data, ("bridge").data, ("tunnel").data]

/-- Keyword set of the alternative-route branch (app.py line 293). -/
def altRouteKeywords : List Str :=
  [("shortcut").data, ("faster").data, ("quicker").data, ("alternative").data,
   ("another way").data]

/-- Keyword set of the nearby-place branch (app.py line 299). -/
def nearbyKeywords : List Str :=
  [("nearby").data, ("close").data, ("around").data, ("find").data, ("search").data]

/-- The second-level place-type keywords (app.py line 300). -/
def placeTypes : List Str :=
  [("restaurant").data, ("gas").data, ("petrol").data, ("fuel").data, ("hotel").data,
   ("hospital").data, ("pharmacy").data, ("atm").data, ("bank").data, ("cafe").data,
   ("coffee").data]

/-- The rule-based fallback of `process_navigation_query` (app.py lines
256-330).  `location` is the request's location already rendered as the
`"latitude,longitude"` string app.py builds from it (`none` when the request
carries no truthy location); `context_destination` is
`request.context.get("destination")` when a context is present.  The two
collaborators are oracles returning `none` where the Python call would raise
(the surrounding `try` then falls through to the generic reply). -/
def navQueryFallback (trafficO : Str → Str → Option TrafficInfoDict)
    (placesO : Str → Str → Option PlacesResult)
    (query : Str) (location : Option Str) (context_destination : Option Str) :
    NavQueryResponse :=
  let ql := lowerStr query
  if trafficKeywords.any (fun k => containsSub k ql) then
    let generic : NavQueryResponse :=
      { query_type := ("traffic").data, original_query := query,
        response := ("Let me check the traffic conditions for you. Please make sure your location is enabled.").data }
    match location, context_destination with
    | some loc, some dest =>
      if dest ≠ [] then
        match trafficO loc dest with
        | some ti =>
          { query_type := ("traffic").data, original_query := query,
            traffic_info := some ti,
            response := ("Traffic is ").data ++ ti.traffic_level.getD (("moderate").data)
              ++ (" on your route. Expected delay of ").data
              ++ (match ti.delay_minutes with
                  | some d => (toString d).data
                  | none => ("5-10").data)
              ++ (" minutes.").data }
        | none => generic
      else generic
    | _, _ => generic
  else if featureKeywords.any (fun k => containsSub k ql) then
    let feature := (featureKeywords.find? (fun k => containsSub k ql)).getD (("feature").data)
    { query_type := ("route_feature").data, original_query := query,
      feature := some feature,
      response := ("There's a ").data ++ feature
        ++ (" ahead on your route. I'll guide you when we get closer.").data }
  else if altRouteKeywords.any (fun k => containsSub k ql) then
    { query_type := ("alternative_route").data, original_query := query,
      response := ("I'll check for alternatives on your route. Let me analyze the traffic conditions.").data }
  else if nearbyKeywords.any (fun k => containsSub k ql) then
    match placeTypes.find? (fun k => containsSub k ql) with
    | some found_type =>
      let search_term :=
        if found_type = ("gas").data || found_type = ("petrol").data
            || found_type = ("fuel").data then
          ("gas station").data
        else found_type
      let generic : NavQueryResponse :=
        { query_type := ("nearby_place").data, original_query := query,
          place_type := some found_type,
          response := ("I'll help you find ").data ++ found_type
            ++ ("s nearby. Please make sure your location is enabled.").data }
      match location with
      | some loc =>
        match placesO search_term loc with
        | some pl =>
          if pl.status = ("OK").data && ! pl.places.isEmpty then
            { query_type := ("nearby_place").data, original_query := query,
              place_type := some found_type, places := some pl,
              response := ("I found ").data ++ (toString (min 3 pl.places.length)).data
                ++ (" ").data ++ search_term ++ ("s nearby. The closest one is ").data
                ++ ((pl.places.head?.map Place.name).getD []) ++ (".").data }
          else { generic with places := some pl }
        | none => generic
      | none => generic
    | none =>
      { query_type := ("general_navigation").data, original_query := query,
        response := ("I'll help you with your navigation needs. Please provide more details or ask a specific question.").data }
  else
    { query_type := ("general_navigation").data, original_query := query,
      response := ("I'll help you with your navigation needs. Please provide more details or ask a specific question.").data }

/-- The `/api/navigation/query` handler `process_navigation_query` (app.py
lines 229-333).  `llmResult` is `none` when no generation client is
configured, otherwise the reply of `llm.generate_reply` for the constructed
prompt; an empty query is rejected with a client error, modelled as `none`.
In the llm-processed branch `original_query` holds the `processed_query`
echo. -/
def process_navigation_query (llmResult : Option LLMResult)
    (trafficO : Str → Str → Option TrafficInfoDict)
    (placesO : Str → Str → Option PlacesResult)
    (query : Str) (location : Option Str) (context_destination : Option Str) :
    Option NavQueryResponse :=
  if query = [] then none
  else
    match llmResult with
    | some r =>
      if r.status = ("success").data then
        some { query_type := ("llm_processed").data, original_query := query,
               response := r.response }
      else some (navQueryFallback trafficO placesO query location context_destination)
    | none => some (navQueryFallback trafficO placesO query location context_destination)

/-- Floor of an integer divided by 60 over the rationals is integer division. -/
lemma floor_intCast_div_60 (d : Int) : ⌊((d : Rat)) / 60⌋ = d / 60 := by
  have h := Rat.floor_intCast_div_natCast d 60
  simpa using h

/-- On a nonnegative difference, `delay_minutes` is the floor (= integer
division by 60). -/
lemma delay_minutes_of_le (td nd : Int) (h : nd ≤ td) :
    delay_minutes td nd = (td - nd) / 60 := by
  have h0 : (0 : Rat) ≤ ((td - nd : Int) : Rat) / 60 :=
    div_nonneg (by exact_mod_cast sub_nonneg.mpr h) (by norm_num)
  unfold delay_minutes ratTrunc
  rw [if_pos h0, floor_intCast_div_60]

/-- On a negative difference, `delay_minutes` is the negated floor of the
opposite difference over 60: truncation toward zero. -/
lemma delay_minutes_of_lt (td nd : Int) (h : td < nd) :
    delay_minutes td nd = -((nd - td) / 60) := by
  have hneg : ((td - nd : Int) : Rat) / 60 < 0 :=
    div_neg_of_neg_of_pos (by exact_mod_cast sub_neg.mpr h) (by norm_num)
  unfold delay_minutes ratTrunc
  rw [if_neg (not_le.mpr hneg)]
  have hceil : ⌈((td - nd : Int) : Rat) / 60⌉ = -⌊-(((td - nd : Int) : Rat) / 60)⌋ := by
    rw [Int.floor_neg, neg_neg]
  have heq : -(((td - nd : Int) : Rat) / 60) = ((nd - td : Int) : Rat) / 60 := by
    push_cast
    ring
  rw [hceil, heq, floor_intCast_div_60]

/-- C1: the traffic classifier computes `ratio = withTraffic / withoutTraffic`
with `withoutTraffic <= 0` treated as ratio 1, assigns `light` for ratio
below 1.1, `moderate` for ratio in [1.1, 1.3), `heavy` for ratio in
[1.3, 1.5) and `severe` for ratio at least 1.5, and sets `has_traffic`
exactly when `withTraffic > withoutTraffic * 1.1`; `classify(1200, 1000)`
is `moderate` with traffic present. -/
theorem traffic_classifier_bands : ∀ td nd : Int,
    (traffic_level td nd = ("light").data ↔ traffic_ratio td nd < 1.1)
  ∧ (traffic_level td nd = ("moderate").data ↔
      1.1 ≤ traffic_ratio td nd ∧ traffic_ratio td nd < 1.3)
  ∧ (traffic_level td nd = ("heavy").data ↔
      1.3 ≤ traffic_ratio td nd ∧ traffic_ratio td nd < 1.5)
  ∧ (traffic_level td nd = ("severe").data ↔ 1.5 ≤ traffic_ratio td nd)
  ∧ (nd ≤ 0 → traffic_ratio td nd = 1)
  ∧ (has_traffic td nd = true ↔ (nd : Rat) * 1.1 < (td : Rat))
  ∧ traffic_level 1200 1000 = ("moderate").data
  ∧ has_traffic 1200 1000 = true := by
  have hr : traffic_ratio 1200 1000 = 6 / 5 := by
    unfold traffic_ratio
    norm_num
  intro td nd
  refine ⟨?_, ?_, ?_, ?_, ?_, ?_, ?_, ?_⟩
  · unfold traffic_level
    split_ifs with h1 h2 h3
    · exact iff_of_true rfl h1
    · exact iff_of_false (by decide) h1
    · exact iff_of_false (by decide) h1
    · exact iff_of_false (by decide) h1
  · unfold traffic_level
    split_ifs with h1 h2 h3
    · exact iff_of_false (by decide) (fun hc => absurd hc.1 (not_le.mpr h1))
    · exact iff_of_true rfl ⟨not_lt.mp h1, h2⟩
    · exact iff_of_false (by decide) (fun hc => h2 hc.2)
    · exact iff_of_false (by decide) (fun hc => h2 hc.2)
  · unfold traffic_level
    split_ifs with h1 h2 h3
    · exact iff_of_false (by decide)
        (fun hc => absurd (hc.1.trans_lt h1) (by norm_num))
    · exact iff_of_false (by decide)
        (fun hc => absurd (hc.1.trans_lt h2) (by norm_num))
    · exact iff_of_true rfl ⟨not_lt.mp h2, h3⟩
    · exact iff_of_false (by decide) (fun hc => h3 hc.2)
  · unfold traffic_level
    split_ifs with h1 h2 h3
    · exact iff_of_false (by decide)
        (fun hc => absurd (hc.trans_lt h1) (by norm_num))
    · exact iff_of_false (by decide)
        (fun hc => absurd (hc.trans_lt h2) (by norm_num))
    · exact iff_of_false (by decide)
        (fun hc => absurd (hc.trans_lt h3) (by norm_num))
    · exact iff_of_true rfl (not_lt.mp h3)
  · intro hnd
    unfold traffic_ratio
    rw [if_neg (not_lt.mpr hnd)]
  · simp [has_traffic]
  · unfold traffic_level
    rw [hr]
    norm_num
  · unfold has_traffic
    rw [decide_eq_true_eq]
    norm_num

/-- C3 counterexample: `delay_minutes` is Python `int()` truncation, not the
mathematical floor; at `withTraffic = 1000`, `withoutTraffic = 1030` the code
yields 0 while the floor of `(1000 - 1030) / 60` is -1, the value the claim
asserts. -/
theorem delay_minutes_not_floor :
    delay_minutes 1000 1030 = 0
  ∧ delay_minutes 1000 1030 ≠ -1
  ∧ Int.fdiv (1000 - 1030) 60 = -1 := by
  have h : delay_minutes 1000 1030 = -((1030 - 1000) / 60) :=
    delay_minutes_of_lt 1000 1030 (by norm_num)
  refine ⟨?_, ?_, by decide⟩ <;> rw [h] <;> decide

/-- C3 amended: `delayMinutes` is the truncation toward zero of
`(withTraffic - withoutTraffic) / 60`: the floor when the difference is
nonnegative and the negated floor of the opposite difference otherwise; a
saving of a full minute or more still comes out negative (not clamped), but
`(1000, 1030)` yields 0, not -1. -/
theorem delay_minutes_truncates : ∀ td nd : Int,
    (nd ≤ td → delay_minutes td nd = (td - nd) / 60)
  ∧ (td < nd → delay_minutes td nd = -((nd - td) / 60))
  ∧ (td - nd ≤ -60 → delay_minutes td nd < 0)
  ∧ delay_minutes 1000 1030 = 0 := by
  intro td nd
  refine ⟨delay_minutes_of_le td nd, delay_minutes_of_lt td nd, ?_, ?_⟩
  · intro h
    rw [delay_minutes_of_lt td nd (by omega)]
    omega
  · rw [delay_minutes_of_lt 1000 1030 (by norm_num)]
    decide

/-- A split at the first occurrence exists exactly when the pattern occurs. -/
lemma splitFirst_eq_none_of_not_contains {pat t : Str} (h : containsSub pat t = false) :
    splitFirst pat t = none := by
  unfold containsSub at h
  cases hsp : splitFirst pat t with
  | none => rfl
  | some v => rw [hsp] at h; simp at h

/-- Rule 5 in terms of the first-colon split: it matches exactly when some
colon has at least one character after it, and then strips everything after
the first colon. -/
lemma rule5_colon_eq_splitFirst : ∀ t : Str, rule5_colon t =
    (match splitFirst ([':']) t with
     | some (_, post) => if post = [] then none else some (pyStrip post)
     | none => none) := by
  intro t
  induction t with
  | nil => rfl
  | cons c rest ih =>
    by_cases hc : c = ':'
    · subst hc
      have hpre : List.isPrefixOf ([':'] : Str) (':' :: rest) = true := by
        simp [List.isPrefixOf]
      simp [rule5_colon, splitFirst, hpre]
    · have hpre : List.isPrefixOf ([':'] : Str) (c :: rest) = false := by
        simp [List.isPrefixOf, beq_iff_eq]
        exact fun hx => hc hx.symm
      simp only [rule5_colon, if_neg hc, ih]
      simp only [splitFirst, hpre, Bool.false_eq_true, if_false]
      cases hsp : splitFirst ([':']) rest with
      | none => simp [hsp]
      | some v =>
        obtain ⟨pre, post⟩ := v
        simp [hsp]

/-- The head surviving a `dropWhile` fails the predicate. -/
lemma not_pyIsSpace_of_dropWhile_cons :
    ∀ (l : Str) {c : Char} {rest : Str},
      l.dropWhile pyIsSpace = c :: rest → pyIsSpace c = false := by
  intro l
  induction l with
  | nil => intro c rest h; simp [List.dropWhile] at h
  | cons x xs ih =>
    intro c rest h
    rw [List.dropWhile_cons] at h
    by_cases hx : pyIsSpace x = true
    · rw [if_pos hx] at h
      exact ih h
    · rw [if_neg hx] at h
      cases h
      simpa using hx

/-- `pyStrip` written with `rdropWhile`. -/
lemma pyStrip_eq_rdrop (s : Str) :
    pyStrip s = List.rdropWhile pyIsSpace (s.dropWhile pyIsSpace) := rfl

/-- Left-stripping again after the right strip changes nothing: the first
character already fails the predicate. -/
lemma dropWhile_rdropWhile_dropWhile (s : Str) :
    List.dropWhile pyIsSpace (List.rdropWhile pyIsSpace (s.dropWhile pyIsSpace)) =
      List.rdropWhile pyIsSpace (s.dropWhile pyIsSpace) := by
  cases hb : List.rdropWhile pyIsSpace (s.dropWhile pyIsSpace) with
  | nil => simp
  | cons c rest =>
    have hpre : List.rdropWhile pyIsSpace (s.dropWhile pyIsSpace) <+: s.dropWhile pyIsSpace :=
      List.rdropWhile_prefix _ _
    rw [hb] at hpre
    obtain ⟨tl, htl⟩ := hpre
    have hhead : pyIsSpace c = false :=
      not_pyIsSpace_of_dropWhile_cons s (by rw [← htl]; rfl)
    rw [List.dropWhile_cons, if_neg (by simp [hhead])]

/-- Python `strip` is idempotent. -/
lemma pyStrip_idem (s : Str) : pyStrip (pyStrip s) = pyStrip s := by
  rw [pyStrip_eq_rdrop, pyStrip_eq_rdrop, dropWhile_rdropWhile_dropWhile]
  exact List.rdropWhile_idempotent _ _

/-- Unfolding the cascade when rules 1-4 all fail. -/
lemma clean_eq_of_no_rules (t : Str) (h1 : rule1_saarthi t = none)
    (h2 : rule2_parens t = none) (h3 : rule3_quotes t = none)
    (h4 : rule4_possible t = none) :
    clean_llm_response t =
      (match rule5_colon t with
       | some r => r
       | none => pyStrip t) := by
  unfold clean_llm_response
  rw [h1, h2, h3, h4]

/-- Rule 5 cannot fire on colon-free text. -/
lemma rule5_colon_eq_none {t : Str} (h : containsSub ([':']) t = false) :
    rule5_colon t = none := by
  rw [rule5_colon_eq_splitFirst, splitFirst_eq_none_of_not_contains h]

/-- No trigger pattern of the extraction cascade fires: no `Saarthi:` marker,
no trailing parenthesized clause, no Devanagari quoted span, no
"possible response" cue and no colon. -/
def triggerFree (t : Str) : Prop :=
  rule1_saarthi t = none ∧ rule2_parens t = none ∧ rule3_quotes t = none ∧
    rule4_possible t = none ∧ containsSub ([':']) t = false

/-- On trigger-free text the cascade just trims. -/
lemma clean_of_triggerFree {t : Str} (h : triggerFree t) :
    clean_llm_response t = pyStrip t := by
  obtain ⟨h1, h2, h3, h4, h5⟩ := h
  rw [clean_eq_of_no_rules t h1 h2 h3 h4, rule5_colon_eq_none h5]

/-- C2 counterexample: on input with two `Saarthi:` markers on separate
lines, the extractor returns the content after the FIRST marker up to that
line's end, not the content after the last marker through the end of the
text (which would be `B`). -/
theorem clean_saarthi_uses_first_marker :
    clean_llm_response (("Saarthi: A\nSaarthi: B").data) = ("A").data
  ∧ ("A").data ≠ ("B").data := by decide

/-- C2 amended: whenever the input contains the `Saarthi:` marker, rule 1
matches and the cascade returns its extraction - the content after the first
occurrence of the marker, with whitespace and one optional wrapping quote
removed, up to the nearest following line end - and no later rule is
applied; the spec's example still holds. -/
theorem clean_saarthi_marker_rule (t : Str)
    (h : containsSub (("Saarthi:").data) t = true) :
    (∃ g, rule1_saarthi t = some g ∧ clean_llm_response t = g)
  ∧ clean_llm_response (("Assuming X... Saarthi: \"Seedhe chalo\"").data)
      = ("Seedhe chalo").data := by
  constructor
  · unfold containsSub at h
    cases hsp : splitFirst (("Saarthi:").data) t with
    | none => rw [hsp] at h; simp at h
    | some v =>
      obtain ⟨pre, rest⟩ := v
      exact ⟨pyStrip (lazyBody [] (dropOpenQuote (rest.dropWhile pyIsSpace))),
        by simp [rule1_saarthi, hsp],
        by simp [clean_llm_response, rule1_saarthi, hsp]⟩
  · decide

/-- C2 witness at a concrete input. -/
theorem clean_saarthi_marker_rule_witness :
    (∃ g, rule1_saarthi (("Saarthi: ok").data) = some g
        ∧ clean_llm_response (("Saarthi: ok").data) = g)
  ∧ clean_llm_response (("Assuming X... Saarthi: \"Seedhe chalo\"").data)
      = ("Seedhe chalo").data :=
  clean_saarthi_marker_rule (("Saarthi: ok").data) (by decide)

/-- C4 counterexample: on `a: b: c` none of rules 1-4 applies and the
fallback returns everything after the FIRST colon (`b: c`), not everything
after the last colon (`c`). -/
theorem clean_colon_uses_first_colon :
    rule1_saarthi (("a: b: c").data) = none
  ∧ rule2_parens (("a: b: c").data) = none
  ∧ rule3_quotes (("a: b: c").data) = none
  ∧ rule4_possible (("a: b: c").data) = none
  ∧ clean_llm_response (("a: b: c").data) = ("b: c").data
  ∧ ("b: c").data ≠ ("c").data := by decide

/-- C4 amended: when rules 1-4 all fail, the cascade returns everything
after the FIRST colon, trimmed, provided that colon has at least one
character after it; with no such colon (none at all, or only a colon as the
final character) it returns the trimmed original text. -/
theorem clean_colon_fallback (t : Str)
    (h1 : rule1_saarthi t = none) (h2 : rule2_parens t = none)
    (h3 : rule3_quotes t = none) (h4 : rule4_possible t = none) :
    clean_llm_response t =
      (match splitFirst ([':']) t with
       | some (_, post) => if post = [] then pyStrip t else pyStrip post
       | none => pyStrip t) := by
  rw [clean_eq_of_no_rules t h1 h2 h3 h4, rule5_colon_eq_splitFirst]
  cases hsp : splitFirst ([':']) t with
  | none => rfl
  | some v =>
    obtain ⟨pre, post⟩ := v
    by_cases hp : post = []
    · simp [hp]
    · simp [hp]

/-- C4 witness at a concrete input. -/
theorem clean_colon_fallback_witness :
    clean_llm_response (("x: y").data) =
      (match splitFirst ([':']) (("x: y").data) with
       | some (_, post) => if post = [] then pyStrip (("x: y").data) else pyStrip post
       | none => pyStrip (("x: y").data)) :=
  clean_colon_fallback (("x: y").data) (by decide) (by decide) (by decide) (by decide)

/-- C5 counterexample: `ab(c) ` satisfies every trigger-freedom condition of
the claim (no marker, rule 2's pattern does not match because the `)` is not
at a line end, no quoted Devanagari, no cue, no colon), yet cleaning twice
differs from cleaning once: the first pass trims the trailing blank, which
brings the `)` to the end of the text and arms rule 2 for the second pass. -/
theorem clean_not_idempotent_on_trigger_free :
    triggerFree (("ab(c) ").data)
  ∧ clean_llm_response (clean_llm_response (("ab(c) ").data))
      ≠ clean_llm_response (("ab(c) ").data) := by
  constructor
  · exact ⟨by decide, by decide, by decide, by decide, by decide⟩
  · decide

/-- C5 amended: the cascade is total by construction, and it is idempotent
on every input that is trigger-free and stays trigger-free after trimming
(equivalently, does not end in a parenthesized clause followed only by
whitespace). -/
theorem clean_idempotent_of_triggerFree (t : Str)
    (h1 : triggerFree t) (h2 : triggerFree (pyStrip t)) :
    clean_llm_response (clean_llm_response t) = clean_llm_response t := by
  rw [clean_of_triggerFree h1, clean_of_triggerFree h2, pyStrip_idem]

/-- C5 witness at a concrete input. -/
theorem clean_idempotent_of_triggerFree_witness :
    clean_llm_response (clean_llm_response (("hello world").data))
      = clean_llm_response (("hello world").data) :=
  clean_idempotent_of_triggerFree (("hello world").data)
    ⟨by decide, by decide, by decide, by decide, by decide⟩
    ⟨by decide, by decide, by decide, by decide, by decide⟩

/-- Looking up the key just assigned yields the assigned session. -/
lemma lookup_dictSet_self : ∀ (l : List (Str × Session)) (k : Str) (v : Session),
    List.lookup k (dictSet l k v) = some v := by
  intro l k v
  induction l with
  | nil => simp [dictSet, List.lookup]
  | cons q rest ih =>
    obtain ⟨k0, v0⟩ := q
    by_cases h : k0 = k
    · subst h
      simp [dictSet, List.lookup]
    · have hne : (k == k0) = false := by
        simp [beq_iff_eq]
        exact fun hh => h hh.symm
      simp only [dictSet, if_neg h, List.lookup, hne]
      exact ih

/-- A successful lookup is membership. -/
lemma mem_of_lookup : ∀ {l : List (Str × Session)} {k : Str} {v : Session},
    List.lookup k l = some v → (k, v) ∈ l := by
  intro l
  induction l with
  | nil => intro k v h; simp [List.lookup] at h
  | cons q rest ih =>
    obtain ⟨k0, v0⟩ := q
    intro k v h
    by_cases hkk : k = k0
    · subst hkk
      simp [List.lookup] at h
      simp [h]
    · have hne : (k == k0) = false := by simp [beq_iff_eq, hkk]
      simp only [List.lookup, hne] at h
      exact List.mem_cons_of_mem _ (ih h)

/-- An element of the assignment result is the new pair or an old one. -/
lemma mem_dictSet : ∀ (l : List (Str × Session)) (k : Str) (v : Session)
    (q : Str × Session), q ∈ dictSet l k v → q = (k, v) ∨ q ∈ l := by
  intro l k v
  induction l with
  | nil =>
    intro q hq
    simp [dictSet] at hq
    exact Or.inl hq
  | cons p rest ih =>
    obtain ⟨k0, v0⟩ := p
    intro q hq
    by_cases h : k0 = k
    · subst h
      simp only [dictSet, if_pos rfl] at hq
      rcases List.mem_cons.mp hq with h1 | h2
      · exact Or.inl h1
      · exact Or.inr (List.mem_cons_of_mem _ h2)
    · simp only [dictSet, if_neg h] at hq
      rcases List.mem_cons.mp hq with h1 | h2
      · exact Or.inr (by simp [h1])
      · rcases ih q h2 with ha | hb
        · exact Or.inl ha
        · exact Or.inr (List.mem_cons_of_mem _ hb)

/-- A key of the assignment result is the new key or an old one. -/
lemma mem_keys_dictSet {l : List (Str × Session)} {k : Str} {v : Session} {x : Str}
    (h : x ∈ (dictSet l k v).map Prod.fst) : x = k ∨ x ∈ l.map Prod.fst := by
  rcases List.mem_map.mp h with ⟨q, hq, hfst⟩
  rcases mem_dictSet l k v q hq with h1 | h2
  · exact Or.inl (by rw [← hfst, h1])
  · exact Or.inr (List.mem_map.mpr ⟨q, h2, hfst⟩)

/-- Assignment preserves key uniqueness. -/
lemma nodup_keys_dictSet : ∀ (l : List (Str × Session)) (k : Str) (v : Session),
    (l.map Prod.fst).Nodup → ((dictSet l k v).map Prod.fst).Nodup := by
  intro l k v
  induction l with
  | nil => intro _; simp [dictSet]
  | cons p rest ih =>
    obtain ⟨k0, v0⟩ := p
    intro hnd
    rw [List.map_cons, List.nodup_cons] at hnd
    obtain ⟨hk0, hnd'⟩ := hnd
    by_cases h : k0 = k
    · subst h
      have hset : dictSet ((k0, v0) :: rest) k0 v = (k0, v) :: rest := by
        simp [dictSet]
      rw [hset, List.map_cons, List.nodup_cons]
      exact ⟨hk0, hnd'⟩
    · simp only [dictSet, if_neg h, List.map_cons, List.nodup_cons]
      refine ⟨?_, ih hnd'⟩
      intro hmem
      rcases mem_keys_dictSet hmem with h1 | h2
      · exact h h1
      · exact hk0 h2

/-- With unique keys, a hit in the filtered list is a hit in the original
list on an entry the filter keeps. -/
lemma lookup_filter {p : Str × Session → Bool} : ∀ {l : List (Str × Session)}
    {k : Str} {v : Session}, (l.map Prod.fst).Nodup →
    List.lookup k (l.filter p) = some v →
    List.lookup k l = some v ∧ p (k, v) = true := by
  intro l
  induction l with
  | nil => intro k v _ h; simp [List.lookup] at h
  | cons q rest ih =>
    obtain ⟨k0, v0⟩ := q
    intro k v hnd h
    rw [List.map_cons, List.nodup_cons] at hnd
    obtain ⟨hk0, hnd'⟩ := hnd
    by_cases hp : p (k0, v0) = true
    · rw [List.filter_cons_of_pos hp] at h
      by_cases hkk : k = k0
      · subst hkk
        simp [List.lookup] at h ⊢
        exact ⟨h, h ▸ hp⟩
      · have hne : (k == k0) = false := by simp [beq_iff_eq, hkk]
        simp only [List.lookup, hne] at h ⊢
        exact ih hnd' h
    · rw [List.filter_cons_of_neg (by simpa using hp)] at h
      have hres := ih hnd' h
      by_cases hkk : k = k0
      · exfalso
        subst hkk
        exact hk0 (List.mem_map.mpr ⟨(k, v), mem_of_lookup hres.1, rfl⟩)
      · have hne : (k == k0) = false := by simp [beq_iff_eq, hkk]
        simp only [List.lookup, hne]
        exact hres

/-- With unique keys, an entry the filter keeps is still found after
filtering. -/
lemma lookup_filter_of_pos (p : Str × Session → Bool) : ∀ {l : List (Str × Session)}
    {k : Str} {v : Session}, (l.map Prod.fst).Nodup →
    List.lookup k l = some v → p (k, v) = true →
    List.lookup k (l.filter p) = some v := by
  intro l
  induction l with
  | nil => intro k v _ h _; simp [List.lookup] at h
  | cons q rest ih =>
    obtain ⟨k0, v0⟩ := q
    intro k v hnd h hp
    rw [List.map_cons, List.nodup_cons] at hnd
    obtain ⟨hk0, hnd'⟩ := hnd
    by_cases hkk : k = k0
    · subst hkk
      simp [List.lookup] at h
      subst h
      rw [List.filter_cons_of_pos hp]
      simp [List.lookup]
    · have hne : (k == k0) = false := by simp [beq_iff_eq, hkk]
      simp only [List.lookup, hne] at h
      by_cases hp0 : p (k0, v0) = true
      · rw [List.filter_cons_of_pos hp0]
        simp only [List.lookup, hne]
        exact ih hnd' h hp
      · rw [List.filter_cons_of_neg (by simpa using hp0)]
        exact ih hnd' h hp

/-- C6: `get_session` returns a session only when it is stored and not
expired; every call first purges all expired sessions (every session of the
resulting store is unexpired); a hit comes back with `last_accessed` set to
now and so does the stored copy; and a session created by `create_session`
and never touched again is absent once more than the expiry window has
elapsed, but present with `last_accessed` updated to the lookup time when
fetched before the window has elapsed. -/
theorem get_session_expiry (now : Int) (m : SessionManager) (sid : Str)
    (hnd : (m.sessions.map Prod.fst).Nodup)
    (hexp : 0 ≤ m.session_expiry_minutes) :
    (∀ s, (SessionManager.get_session now m sid).1 = some s →
       ∃ s0, List.lookup sid m.sessions = some s0
         ∧ Session.is_expired now m.session_expiry_minutes s0 = false
         ∧ s = { s0 with last_accessed := now })
  ∧ (∀ k s1, (k, s1) ∈ (SessionManager.get_session now m sid).2.sessions →
       Session.is_expired now m.session_expiry_minutes s1 = false)
  ∧ (∀ gen_id t1,
       (m.session_expiry_minutes < t1 - now →
          (SessionManager.get_session t1
            (SessionManager.create_session gen_id none none now m).2
            (SessionManager.create_session gen_id none none now m).1).1 = none)
     ∧ (t1 - now < m.session_expiry_minutes →
          (SessionManager.get_session t1
            (SessionManager.create_session gen_id none none now m).2
            (SessionManager.create_session gen_id none none now m).1).1
          = some (Session.mk gen_id DEFAULT_CONTEXT [] now t1))) := by
  refine ⟨?_, ?_, ?_⟩
  · intro s hs
    simp only [SessionManager.get_session, SessionManager.clean_expired_sessions] at hs
    cases hlk : List.lookup sid
        (m.sessions.filter
          (fun q => ! Session.is_expired now m.session_expiry_minutes q.2)) with
    | none => rw [hlk] at hs; simp at hs
    | some s0 =>
      rw [hlk] at hs
      simp at hs
      obtain ⟨horig, hpred⟩ := lookup_filter hnd hlk
      exact ⟨s0, horig, by simpa using hpred, hs.symm⟩
  · intro k s1 hmem
    simp only [SessionManager.get_session, SessionManager.clean_expired_sessions] at hmem
    cases hlk : List.lookup sid
        (m.sessions.filter
          (fun q => ! Session.is_expired now m.session_expiry_minutes q.2)) with
    | none =>
      rw [hlk] at hmem
      simp only at hmem
      have := (List.mem_filter.mp hmem).2
      simpa using this
    | some s0 =>
      rw [hlk] at hmem
      simp only at hmem
      rcases mem_dictSet _ _ _ _ hmem with h1 | h2
      · injection h1 with hk hs1
        rw [hs1]
        simp only [Session.is_expired]
        rw [decide_eq_false_iff_not]
        omega
      · have := (List.mem_filter.mp h2).2
        simpa using this
  · intro gen_id t1
    have hcre : SessionManager.create_session gen_id none none now m
        = (gen_id, { m with sessions := dictSet m.sessions gen_id (Session.mk gen_id DEFAULT_CONTEXT [] now now) }) := by
      simp [SessionManager.create_session]
    have hnd2 : ((dictSet m.sessions gen_id
        (Session.mk gen_id DEFAULT_CONTEXT [] now now)).map Prod.fst).Nodup :=
      nodup_keys_dictSet _ _ _ hnd
    constructor
    · intro hexpired
      rw [hcre]
      simp only [SessionManager.get_session, SessionManager.clean_expired_sessions]
      cases hlk : List.lookup gen_id
          ((dictSet m.sessions gen_id
            (Session.mk gen_id DEFAULT_CONTEXT [] now now)).filter
            (fun q => ! Session.is_expired t1 m.session_expiry_minutes q.2)) with
      | none => rfl
      | some w =>
        exfalso
        obtain ⟨horig, hpred⟩ := lookup_filter hnd2 hlk
        rw [lookup_dictSet_self] at horig
        injection horig with hw
        rw [← hw] at hpred
        simp only [Session.is_expired] at hpred
        rw [Bool.not_eq_true', decide_eq_false_iff_not] at hpred
        omega
    · intro hlive
      rw [hcre]
      simp only [SessionManager.get_session, SessionManager.clean_expired_sessions]
      have hpos : (fun q : Str × Session =>
          ! Session.is_expired t1 m.session_expiry_minutes q.2)
            (gen_id, Session.mk gen_id DEFAULT_CONTEXT [] now now) = true := by
        simp only [Session.is_expired]
        rw [Bool.not_eq_true', decide_eq_false_iff_not]
        omega
      have hlk := lookup_filter_of_pos
        (fun q : Str × Session => ! Session.is_expired t1 m.session_expiry_minutes q.2)
        hnd2 (lookup_dictSet_self m.sessions gen_id
          (Session.mk gen_id DEFAULT_CONTEXT [] now now)) hpos
      rw [hlk]

/-- C6 witness at a concrete store, time and id. -/
theorem get_session_expiry_witness :
    (∀ s, (SessionManager.get_session 5 (SessionManager.mk [] 30) (("a").data)).1 = some s →
       ∃ s0, List.lookup (("a").data) (SessionManager.mk ([] : List (Str × Session)) 30).sessions = some s0
         ∧ Session.is_expired 5 (SessionManager.mk ([] : List (Str × Session)) 30).session_expiry_minutes s0 = false
         ∧ s = { s0 with last_accessed := 5 })
  ∧ (∀ k s1, (k, s1) ∈ (SessionManager.get_session 5 (SessionManager.mk [] 30) (("a").data)).2.sessions →
       Session.is_expired 5 (SessionManager.mk ([] : List (Str × Session)) 30).session_expiry_minutes s1 = false)
  ∧ (∀ gen_id t1,
       ((SessionManager.mk ([] : List (Str × Session)) 30).session_expiry_minutes < t1 - 5 →
          (SessionManager.get_session t1
            (SessionManager.create_session gen_id none none 5 (SessionManager.mk [] 30)).2
            (SessionManager.create_session gen_id none none 5 (SessionManager.mk [] 30)).1).1 = none)
     ∧ (t1 - 5 < (SessionManager.mk ([] : List (Str × Session)) 30).session_expiry_minutes →
          (SessionManager.get_session t1
            (SessionManager.create_session gen_id none none 5 (SessionManager.mk [] 30)).2
            (SessionManager.create_session gen_id none none 5 (SessionManager.mk [] 30)).1).1
          = some (Session.mk gen_id DEFAULT_CONTEXT [] 5 t1))) :=
  get_session_expiry 5 (SessionManager.mk [] 30) (("a").data) (by simp) (by norm_num)

/-- C7: when the generation result for the assembled prompt has a non-success
status, `get_response` leaves the resolved session's stored state equal to
its prior state plus exactly the one appended user turn: no assistant or
fallback message is stored, and the system prompt and all earlier messages
are unchanged (the stored session is the prior one with only `messages`
extended by the user turn and `last_accessed` touched). -/
theorem get_response_failure_frame
    (chat : Str → LLMResult) (gen_id : Str) (now : Int) (m : SessionManager)
    (sid msg : Str) (s0 : Session) (m1 : SessionManager)
    (hres : SessionManager.get_session now m sid = (some s0, m1))
    (hchat : (chat (Session.get_formatted_history
        (Session.add_message now s0 (("user").data) msg))).status ≠ ("success").data) :
    ∃ res m2, SessionManager.get_response chat gen_id now m sid msg = some (res, m2)
      ∧ res.session_id = sid
      ∧ res.status = (chat (Session.get_formatted_history
          (Session.add_message now s0 (("user").data) msg))).status
      ∧ List.lookup sid m2.sessions
          = some { s0 with
              messages := s0.messages ++ [Message.mk (("user").data) msg now],
              last_accessed := now } := by
  unfold SessionManager.get_response
  rw [hres]
  simp only [if_neg hchat]
  exact ⟨_, _, rfl, rfl, rfl, lookup_dictSet_self _ _ _⟩

/-- C7 witness: a concrete store with one live session and a chat client
that always fails. -/
theorem get_response_failure_frame_witness :
    ∃ res m2,
      SessionManager.get_response (fun _ => LLMResult.mk (("error").data) (("boom").data))
        (("g").data) 1
        (SessionManager.mk [((("a").data), Session.mk (("a").data) (("p").data) [] 0 0)] 30)
        (("a").data) (("hi").data) = some (res, m2)
      ∧ res.session_id = ("a").data
      ∧ res.status = ((fun (_ : Str) => LLMResult.mk (("error").data) (("boom").data))
          (Session.get_formatted_history
            (Session.add_message 1 (Session.mk (("a").data) (("p").data) [] 0 1)
              (("user").data) (("hi").data)))).status
      ∧ List.lookup (("a").data) m2.sessions
          = some { Session.mk (("a").data) (("p").data) [] 0 1 with
              messages := (Session.mk (("a").data) (("p").data) [] 0 1).messages
                ++ [Message.mk (("user").data) (("hi").data) 1],
              last_accessed := 1 } :=
  get_response_failure_frame
    (fun _ => LLMResult.mk (("error").data) (("boom").data)) (("g").data) 1
    (SessionManager.mk [((("a").data), Session.mk (("a").data) (("p").data) [] 0 0)] 30)
    (("a").data) (("hi").data)
    (Session.mk (("a").data) (("p").data) [] 0 1)
    (SessionManager.mk [((("a").data), Session.mk (("a").data) (("p").data) [] 0 1)] 30)
    (by decide) (by decide)

/-- A list is a boolean prefix of itself extended. -/
lemma isPrefixOf_append_self : ∀ (pat suf : Str), pat.isPrefixOf (pat ++ suf) = true := by
  intro pat
  induction pat with
  | nil => intro suf; simp [List.isPrefixOf]
  | cons p ps ih => intro suf; simp [List.isPrefixOf, ih]

/-- The pattern occurs in any text starting with it. -/
lemma containsSub_self_append (pat suf : Str) : containsSub pat (pat ++ suf) = true := by
  unfold containsSub
  cases hps : pat ++ suf with
  | nil =>
    obtain ⟨hp, _⟩ := List.append_eq_nil.mp hps
    simp [splitFirst, hp, List.isPrefixOf]
  | cons c rest =>
    have hpre : pat.isPrefixOf (c :: rest) = true := by
      rw [← hps]
      exact isPrefixOf_append_self pat suf
    simp [splitFirst, hpre]

/-- The pattern occurs in any text embedding it. -/
lemma containsSub_of_append : ∀ (pre pat suf : Str),
    containsSub pat (pre ++ (pat ++ suf)) = true := by
  intro pre
  induction pre with
  | nil => intro pat suf; simpa using containsSub_self_append pat suf
  | cons c rest ih =>
    intro pat suf
    have ihc := ih pat suf
    unfold containsSub at ihc ⊢
    rw [List.cons_append]
    by_cases hpre : pat.isPrefixOf (c :: (rest ++ (pat ++ suf))) = true
    · simp [splitFirst, hpre]
    · cases hsp : splitFirst pat (rest ++ (pat ++ suf)) with
      | none => rw [hsp] at ihc; simp at ihc
      | some v =>
        obtain ⟨a, b⟩ := v
        simp [splitFirst, hpre, hsp]

/-- C8: on a query whose lower-casing contains one of the route-feature
keywords and none of the traffic keywords, the rule-based fallback (reached
whenever generation is unavailable or unsuccessful and the query is
nonempty) classifies the query as `route_feature`, sets the feature slot to
the first matching keyword in list order, and returns a reply containing
that feature word. -/
theorem fallback_route_feature (llmResult : Option LLMResult)
    (trafficO : Str → Str → Option TrafficInfoDict)
    (placesO : Str → Str → Option PlacesResult)
    (query : Str) (location : Option Str) (cdest : Option Str)
    (hq : query ≠ [])
    (hllm : ∀ r, llmResult = some r → r.status ≠ ("success").data)
    (hfeat : featureKeywords.any (fun k => containsSub k (lowerStr query)) = true)
    (htraf : trafficKeywords.any (fun k => containsSub k (lowerStr query)) = false) :
    ∃ resp, process_navigation_query llmResult trafficO placesO query location cdest = some resp
      ∧ resp.query_type = ("route_feature").data
      ∧ resp.feature = featureKeywords.find? (fun k => containsSub k (lowerStr query))
      ∧ (∃ f, resp.feature = some f ∧ containsSub f resp.response = true) := by
  have hfall : navQueryFallback trafficO placesO query location cdest =
      { query_type := ("route_feature").data, original_query := query,
        feature := some ((featureKeywords.find?
          (fun k => containsSub k (lowerStr query))).getD (("feature").data)),
        response := ("There's a ").data
          ++ (featureKeywords.find? (fun k => containsSub k (lowerStr query))).getD
              (("feature").data)
          ++ (" ahead on your route. I'll guide you when we get closer.").data } := by
    unfold navQueryFallback
    dsimp only
    rw [htraf, hfeat]
    simp
  obtain ⟨k, hkmem, hk⟩ := List.any_eq_true.mp hfeat
  have hfind : ∃ k0, featureKeywords.find? (fun k => containsSub k (lowerStr query)) = some k0 := by
    rw [← Option.isSome_iff_exists]
    rw [List.find?_isSome]
    exact ⟨k, hkmem, hk⟩
  obtain ⟨k0, hk0⟩ := hfind
  refine ⟨navQueryFallback trafficO placesO query location cdest, ?_, ?_, ?_, ?_⟩
  · unfold process_navigation_query
    rw [if_neg hq]
    cases llmResult with
    | none => rfl
    | some r =>
      have hr := hllm r rfl
      simp only [if_neg hr]
  · rw [hfall]
  · rw [hfall]
    simp [hk0]
  · rw [hfall]
    refine ⟨k0, by simp [hk0], ?_⟩
    simp only [hk0, Option.getD_some]
    rw [List.append_assoc]
    exact containsSub_of_append _ _ _

/-- C8 witness: generation unavailable, a flyover query, no location. -/
theorem fallback_route_feature_witness :
    ∃ resp, process_navigation_query none (fun _ _ => none) (fun _ _ => none)
        (("Is there a flyover ahead?").data) none none = some resp
      ∧ resp.query_type = ("route_feature").data
      ∧ resp.feature = featureKeywords.find?
          (fun k => containsSub k (lowerStr (("Is there a flyover ahead?").data)))
      ∧ (∃ f, resp.feature = some f ∧ containsSub f resp.response = true) :=
  fallback_route_feature none (fun _ _ => none) (fun _ _ => none)
    (("Is there a flyover ahead?").data) none none (by decide)
    (fun r hr => Option.noConfusion hr) (by decide) (by decide)

/-- One role-prefixed line of the prompt: `User: ` for user turns, otherwise
`Saarthi: `, then the content and a newline. -/
def msgLine (m : Message) : Str :=
  (if m.role = ("user").data then ("User: ").data else ("Saarthi: ").data)
    ++ m.content ++ ['\n']

/-- C9: the prompt formatter is a pure function of the session returning the
system prompt, a blank line, each message in insertion order as a
role-prefixed line, and the open `Saarthi: ` assistant-turn marker exactly
when the message list is nonempty and its most recent message has role
`user`; the session itself is not modified (the formatter only reads it). -/
theorem get_formatted_history_spec : ∀ s : Session,
    Session.get_formatted_history s =
      s.system_prompt ++ ("\n\n").data ++ (s.messages.map msgLine).flatten
      ++ (if s.messages.getLast?.map Message.role = some (("user").data)
          then ("Saarthi: ").data else ([] : Str)) := by
  intro s
  unfold Session.get_formatted_history
  have hfold : ∀ (l : List Message) (b : Str),
      (l.foldl (fun acc m =>
        if m.role = ("user").data then acc ++ ("User: ").data ++ m.content ++ ['\n']
        else acc ++ ("Saarthi: ").data ++ m.content ++ ['\n']) b)
      = b ++ (l.map msgLine).flatten := by
    intro l
    induction l with
    | nil => intro b; simp
    | cons mm rest ih =>
      intro b
      rw [List.foldl_cons, ih]
      by_cases hm : mm.role = ("user").data
      · simp [msgLine, hm, List.append_assoc]
      · simp [msgLine, hm, List.append_assoc]
  rw [hfold]
  cases hl : s.messages.getLast? with
  | none => simp
  | some mm =>
    by_cases hm : mm.role = ("user").data
    · simp [hm]
    · simp [hm]

/-- A stored session with one user message, for the C10 counterexample. -/
def c10_old_session : Session :=
  Session.mk [] (("p").data) [Message.mk (("user").data) (("hi").data) 0] 0 0

/-- A store that holds `c10_old_session` under the empty-string id. -/
def c10_store : SessionManager := SessionManager.mk [(([] : Str), c10_old_session)] 30

/-- C10 counterexample: `create_session` treats a supplied empty-string id as
falsy and draws a fresh uuid instead, so a store entry under the empty id is
NOT replaced: its old conversation history survives, against the claim that
any present id is unconditionally replaced. -/
theorem create_session_empty_id_not_replacing :
    (SessionManager.create_session (("g").data) (some ([] : Str)) none 5 c10_store).1
      = ("g").data
  ∧ List.lookup ([] : Str)
      (SessionManager.create_session (("g").data) (some ([] : Str)) none 5 c10_store).2.sessions
      = some c10_old_session
  ∧ c10_old_session.messages ≠ [] := by decide

/-- C10 amended: for every store and every NON-EMPTY session id,
`create_session(id, systemPrompt?)` unconditionally stores a brand-new
session under that id - empty message list, `created_at` and
`last_accessed` set to now, and the supplied system prompt (the default one
when the prompt is omitted or empty) - discarding whatever session was
stored under the id before. -/
theorem create_session_replaces (gen_id sid : Str) (hsid : sid ≠ [])
    (sp : Option Str) (now : Int) (m : SessionManager) :
    (SessionManager.create_session gen_id (some sid) sp now m).1 = sid
  ∧ List.lookup sid (SessionManager.create_session gen_id (some sid) sp now m).2.sessions
      = some (Session.mk sid
          (match sp with
           | none => DEFAULT_CONTEXT
           | some p => if p = [] then DEFAULT_CONTEXT else p) [] now now) := by
  constructor
  · simp [SessionManager.create_session, hsid]
  · have hsess : (SessionManager.create_session gen_id (some sid) sp now m).2.sessions
        = dictSet m.sessions sid (Session.mk sid
            (match sp with
             | none => DEFAULT_CONTEXT
             | some p => if p = [] then DEFAULT_CONTEXT else p) [] now now) := by
      simp [SessionManager.create_session, hsid]
    rw [hsess]
    exact lookup_dictSet_self _ _ _

/-- C10 witness at concrete arguments. -/
theorem create_session_replaces_witness :
    (SessionManager.create_session (("u").data) (some (("a").data)) (some (("p2").data)) 7
        (SessionManager.mk [] 30)).1 = ("a").data
  ∧ List.lookup (("a").data)
      (SessionManager.create_session (("u").data) (some (("a").data)) (some (("p2").data)) 7
        (SessionManager.mk [] 30)).2.sessions
      = some (Session.mk (("a").data)
          (match some (("p2").data) with
           | none => DEFAULT_CONTEXT
           | some p => if p = [] then DEFAULT_CONTEXT else p) [] 7 7) :=
  create_session_replaces (("u").data) (("a").data) (by decide) (some (("p2").data)) 7
    (SessionManager.mk [] 30)
